import Mathlib

/-!
Shallow embedding of the notebook
`examples/control-pulseoptim-symplectic.ipynb`.

The notebook sets up numeric matrices and scalar parameters for a
symplectic two-oscillator pulse-optimisation example, makes a single call
to the external optimiser `qutip.control.pulseoptim.optimize_pulse`, and
plots the returned amplitude arrays.  The numpy arrays are embedded as
lists of rows of rationals (mirroring the nested-list literals in the
source) together with their `Matrix (Fin 4) (Fin 4) ℚ` view; the matrix
exponential is taken over ℝ via Mathlib's `NormedSpace.exp`.
-/

namespace SymplNB

/-- The notebook constant `example_name = 'Symplectic'`. -/
def example_name : String := "Symplectic"

/-- Drift parameter `w1 = 1`. -/
def w1 : ℚ := 1

/-- Drift parameter `w2 = 1`. -/
def w2 : ℚ := 1

/-- Coupling parameter `g1 = 0.5`. -/
def g1 : ℚ := 1/2

/-- The nested-list literal from which the drift generator `A0` is built:
`np.array([[w1, 0, g1, 0], [0, w1, 0, g1], [g1, 0, w2, 0], [0, g1, 0, w2]])`. -/
def A0_rows : List (List ℚ) :=
  [[w1, 0, g1, 0],
   [0, w1, 0, g1],
   [g1, 0, w2, 0],
   [0, g1, 0, w2]]

/-- The nested-list literal from which the control generator `Ac` is built:
`np.array([[1, 0, 0, 0], [0, 1, 0, 0], [0, 0, 0, 0], [0, 0, 0, 0]])`. -/
def Ac_rows : List (List ℚ) :=
  [[1, 0, 0, 0],
   [0, 1, 0, 0],
   [0, 0, 0, 0],
   [0, 0, 0, 0]]

/-- Target-generator parameter `a = 1`. -/
def a : ℚ := 1

/-- The nested-list literal from which the target generator `Ag` is built:
`np.array([[0, 0, a, 0], [0, 0, 0, a], [a, 0, 0, 0], [0, a, 0, 0]])`. -/
def Ag_rows : List (List ℚ) :=
  [[0, 0, a, 0],
   [0, 0, 0, a],
   [a, 0, 0, 0],
   [0, a, 0, 0]]

/-- View a 4×4 nested-list array as a `Matrix (Fin 4) (Fin 4) ℚ`
(entry (i, j) is row i, column j; this is how `Qobj(np.array(rows))`
interprets the nested list). -/
def toMat (rows : List (List ℚ)) : Matrix (Fin 4) (Fin 4) ℚ :=
  Matrix.of fun i j => ((rows.getD i.val []).getD j.val 0)

/-- The drift generator `A0 = Qobj(np.array(...))`. -/
def A0 : Matrix (Fin 4) (Fin 4) ℚ := toMat A0_rows

/-- The control generator `Ac = Qobj(np.array(...))`. -/
def Ac : Matrix (Fin 4) (Fin 4) ℚ := toMat Ac_rows

/-- The control list `ctrls = [Ac]`. -/
def ctrls : List (Matrix (Fin 4) (Fin 4) ℚ) := [Ac]

/-- `n_ctrls = len(ctrls)`. -/
def n_ctrls : ℕ := ctrls.length

/-- qutip's `identity(n)`: the n×n identity operator. -/
def identity (n : ℕ) : Matrix (Fin n) (Fin n) ℚ := 1

/-- The initial operator `initial = identity(4)`. -/
def initial : Matrix (Fin 4) (Fin 4) ℚ := identity 4

/-- The target generator `Ag` as a matrix. -/
def Ag : Matrix (Fin 4) (Fin 4) ℚ := toMat Ag_rows

/-- Modelled from the spec: the symplectic structure matrix Ω for `n`
oscillators returned by the external dependency
`qutip.control.symplectic.calc_omega` (not part of this repository).
With coordinates interleaved as (x₁, p₁, …, xₙ, pₙ) it is block diagonal
with 2×2 blocks `[[0, 1], [-1, 0]]`. -/
def calc_omega (n : ℕ) : Matrix (Fin (2*n)) (Fin (2*n)) ℚ :=
  Matrix.of fun i j =>
    if i.val % 2 = 0 ∧ j.val = i.val + 1 then 1
    else if i.val % 2 = 1 ∧ j.val + 1 = i.val then -1
    else 0

/-- The matrix handed to the matrix exponential when the notebook computes
`Sg = Qobj(sympl.calc_omega(2).dot(Ag)).expm()`. -/
def Sg_arg : Matrix (Fin 4) (Fin 4) ℚ := (calc_omega 2) * Ag

/-- The target operator `Sg = Qobj(sympl.calc_omega(2).dot(Ag)).expm()`,
with `.expm()` (the external matrix exponential) embedded as Mathlib's
matrix exponential over ℝ. -/
noncomputable def Sg : Matrix (Fin 4) (Fin 4) ℝ :=
  NormedSpace.exp ℝ (Sg_arg.map (fun q => (q : ℝ)))

/-- Number of time slots: `n_ts = 1000`. -/
def n_ts : ℕ := 1000

/-- Time allowed for the evolution: `evo_time = 10`. -/
def evo_time : ℚ := 10

/-- Fidelity error target: `fid_err_targ = 1e-10`. -/
def fid_err_targ : ℚ := 1e-10

/-- Maximum iterations for the optimisation algorithm: `max_iter = 500`. -/
def max_iter : ℕ := 500

/-- Maximum elapsed wall time allowed in seconds: `max_wall_time = 30`. -/
def max_wall_time : ℚ := 30

/-- Minimum gradient: `min_grad = 1e-20`. -/
def min_grad : ℚ := 1e-20

/-- Initial pulse type: `p_type = 'ZERO'`. -/
def p_type : String := "ZERO"

/-- The format expression producing the output-file extension, from
the source line
`f_ext = "..._n_ts..._ptype....txt".format(example_name, n_ts, p_type)`
(the three placeholder slots receive the three arguments in order). -/
def format_f_ext (name : String) (nts : ℕ) (ptype : String) : String :=
  name ++ "_n_ts" ++ toString nts ++ "_ptype" ++ ptype ++ ".txt"

/-- The output-file extension `f_ext`, built from the run configuration. -/
def f_ext : String := format_f_ext example_name n_ts p_type

/-- The argument record of one call to the external optimiser
`qutip.control.pulseoptim.optimize_pulse`, holding its four positional
operator arguments, the two positional scalar arguments, and the keyword
arguments the notebook passes. -/
structure OptimizeCall where
  drift : Matrix (Fin 4) (Fin 4) ℚ
  ctrls : List (Matrix (Fin 4) (Fin 4) ℚ)
  initial : Matrix (Fin 4) (Fin 4) ℚ
  target : Matrix (Fin 4) (Fin 4) ℝ
  num_tslots : ℕ
  evo_time : ℚ
  fid_err_targ : ℚ
  min_grad : ℚ
  max_iter : ℕ
  max_wall_time : ℚ
  dyn_type : String
  out_file_ext : Option String
  init_pulse_type : String
  gen_stats : Bool

/-- The optimiser calls the notebook makes, in execution order: exactly the
single call
`result = cpo.optimize_pulse(A0, ctrls, initial, Sg, n_ts, evo_time, ...)`. -/
noncomputable def notebook_opt_calls : List OptimizeCall :=
  [{ drift := A0, ctrls := ctrls, initial := initial, target := Sg,
     num_tslots := n_ts, evo_time := evo_time, fid_err_targ := fid_err_targ,
     min_grad := min_grad, max_iter := max_iter, max_wall_time := max_wall_time,
     dyn_type := "SYMPL", out_file_ext := some f_ext,
     init_pulse_type := p_type, gen_stats := true }]

/-- A top-level notebook statement, abstracted to what the claims need:
assignments record the functions called in their right-hand side, loops over
`range(...)` record their iteration count and the functions called per
iteration, and a try/except form records the calls of its body and handler. -/
inductive NbStmt where
  | magic (line : String) : NbStmt
  | importMod (modName : String) : NbStmt
  | assign (lhs : String) (rhsCalls : List String) : NbStmt
  | exprCall (fn : String) : NbStmt
  | forRange (var : String) (bound : ℕ) (bodyCalls : List String) : NbStmt
  | tryExcept (bodyCalls handlerCalls : List String) : NbStmt
deriving DecidableEq

/-- The top-level statements of the notebook's code cells, in order. -/
def notebook_stmts : List NbStmt := [
  -- cell 1
  .magic "%matplotlib inline",
  .importMod "numpy",
  .importMod "matplotlib.pyplot",
  .importMod "datetime",
  -- cell 2
  .importMod "qutip",
  .importMod "qutip.qip",
  .importMod "qutip.logging_utils",
  .assign "logger" ["logging.get_logger"],
  .assign "log_level" [],
  .importMod "qutip.control.pulseoptim",
  .importMod "qutip.control.symplectic",
  .assign "example_name" [],
  -- cell 3
  .assign "w1" [],
  .assign "w2" [],
  .assign "g1" [],
  .assign "A0" ["np.array", "Qobj"],
  .assign "Ac" ["np.array", "Qobj"],
  .assign "ctrls" [],
  .assign "n_ctrls" ["len"],
  .assign "initial" ["identity"],
  .assign "a" [],
  .assign "Ag" ["np.array"],
  .assign "Sg" ["sympl.calc_omega", "dot", "Qobj", "expm"],
  -- cell 4
  .assign "n_ts" [],
  .assign "evo_time" [],
  -- cell 5
  .assign "fid_err_targ" [],
  .assign "max_iter" [],
  .assign "max_wall_time" [],
  .assign "min_grad" [],
  -- cell 6
  .assign "p_type" [],
  -- cell 7
  .assign "f_ext" ["str.format"],
  -- cell 8
  .assign "result" ["cpo.optimize_pulse"],
  -- cell 9
  .exprCall "result.stats.report",
  .exprCall "print",
  .exprCall "print",
  .exprCall "print",
  .exprCall "print",
  .exprCall "print",
  .exprCall "print",
  -- cell 10
  .assign "fig1" ["plt.figure"],
  .assign "ax1" ["fig1.add_subplot"],
  .exprCall "ax1.set_title",
  .exprCall "ax1.set_xlabel",
  .exprCall "ax1.set_ylabel",
  .forRange "j" n_ctrls ["np.hstack", "ax1.step"],
  .assign "ax2" ["fig1.add_subplot"],
  .exprCall "ax2.set_title",
  .exprCall "ax2.set_xlabel",
  .exprCall "ax2.set_ylabel",
  .forRange "j" n_ctrls ["np.hstack", "ax2.step"],
  .exprCall "plt.tight_layout",
  .exprCall "plt.show",
  -- cell 11
  .importMod "qutip.ipynbtools",
  .exprCall "version_table"]

/-- The dynamic call trace of one statement (loop bodies repeated once per
iteration). -/
def stmtCalls : NbStmt → List String
  | .magic _ => []
  | .importMod _ => []
  | .assign _ rhsCalls => rhsCalls
  | .exprCall fn => [fn]
  | .forRange _ bound bodyCalls => (List.replicate bound bodyCalls).flatten
  | .tryExcept bodyCalls handlerCalls => bodyCalls ++ handlerCalls

/-- The dynamic call trace of the whole notebook. -/
def notebook_call_trace : List String := (notebook_stmts.map stmtCalls).flatten

/-- Whether a statement is a try/except form. -/
def isTryExcept : NbStmt → Bool
  | .tryExcept _ _ => true
  | _ => false

/-- Run the notebook statements given a predicate saying which called
functions raise: execution proceeds in order accumulating the names
assigned so far, an unhandled raising call aborts with that function's
name, and a try/except statement would swallow the error.  Mirrors the
straight-line control flow of the notebook cells. -/
def runStmts (raises : String → Bool) : List NbStmt → List String → Except String (List String)
  | [], acc => Except.ok acc.reverse
  | stmt :: rest, acc =>
    match stmt with
    | NbStmt.magic _ => runStmts raises rest acc
    | NbStmt.importMod _ => runStmts raises rest acc
    | NbStmt.assign lhs rhsCalls =>
      match rhsCalls.find? raises with
      | some fn => Except.error fn
      | none => runStmts raises rest (lhs :: acc)
    | NbStmt.exprCall fn =>
      if raises fn then Except.error fn else runStmts raises rest acc
    | NbStmt.forRange _ bound bodyCalls =>
      match ((List.replicate bound bodyCalls).flatten).find? raises with
      | some fn => Except.error fn
      | none => runStmts raises rest acc
    | NbStmt.tryExcept _ _ => runStmts raises rest acc

/-- Modelled from the spec: when `out_file_ext` is not None the external
optimiser writes two text files of control amplitudes (initial and final),
named deterministically from that extension; when it is None, file output
is suppressed.  (The file writing itself lives in the external
`qutip.control` package, not in this repository.) -/
def ampFileNames (out_file_ext : Option String) : List String :=
  match out_file_ext with
  | none => []
  | some ext => ["ctrl_amps_initial_" ++ ext, "ctrl_amps_final_" ++ ext]

/-- row count and per-row lengths of a nested-list array. -/
def listShape (rows : List (List ℚ)) : ℕ × List ℕ :=
  (rows.length, rows.map List.length)

/-- The rows view of a 4×4 matrix. -/
def rowsOf {α : Type} (M : Matrix (Fin 4) (Fin 4) α) : List (List α) :=
  (List.finRange 4).map fun i => (List.finRange 4).map fun j => M i j

/-- row count and per-row lengths of (the rows view of) a 4×4 matrix. -/
def matShape {α : Type} (M : Matrix (Fin 4) (Fin 4) α) : ℕ × List ℕ :=
  ((rowsOf M).length, (rowsOf M).map List.length)

/-- The j-th column of a row-major amplitude array, with default `d` for a
row too short (numpy indexing `amps[:, j]` assumes in-bounds). -/
def colD {α : Type} (amps : List (List α)) (j : ℕ) (d : α) : List α :=
  amps.map fun r => r.getD j d

/-- The amplitude sequence handed to `ax.step`:
`np.hstack((col, col[-1]))` — a column with its final value appended once. -/
def step_amps {α : Type} (col : List α) : List α :=
  col ++ col.getLast?.toList

/-- Modelled from the spec: `result.time` holds the boundaries of the
`n_ts` timeslots plus the final time, hence `n_ts + 1` entries. -/
def time_len (nts : ℕ) : ℕ := nts + 1

/-! ## Helper lemmas -/

/-- The symplectic structure matrix for two oscillators as a literal. -/
lemma omega2_lit : calc_omega 2 = !![0, 1, 0, 0; -1, 0, 0, 0; 0, 0, 0, 1; 0, 0, -1, 0] := by
  ext i j
  fin_cases i <;> fin_cases j <;> rfl

/-- The target generator as a literal (its parameter `a` equals 1). -/
lemma Ag_lit : Ag = !![0, 0, 1, 0; 0, 0, 0, 1; 1, 0, 0, 0; 0, 1, 0, 0] := by
  ext i j
  fin_cases i <;> fin_cases j <;> rfl

/-- The value of the product `calc_omega(2).dot(Ag)`. -/
lemma Sg_arg_lit : Sg_arg = !![0, 0, 0, 1; 0, 0, -1, 0; 0, 1, 0, 0; -1, 0, 0, 0] := by
  rw [Sg_arg, omega2_lit, Ag_lit]
  ext i j
  fin_cases i <;> fin_cases j <;>
    simp [Matrix.mul_apply, Fin.sum_univ_four, Matrix.vecHead, Matrix.vecTail]

/-- The symplectic structure matrix for two oscillators, written out over ℝ
exactly as the spec describes it. -/
def specOmega4 : Matrix (Fin 4) (Fin 4) ℝ :=
  !![0, 1, 0, 0; -1, 0, 0, 0; 0, 0, 0, 1; 0, 0, -1, 0]

/-- The fixed 4×4 coupling matrix built with `a = 1`, written out over ℝ
exactly as the spec describes it. -/
def specAg : Matrix (Fin 4) (Fin 4) ℝ :=
  !![0, 0, 1, 0; 0, 0, 0, 1; 1, 0, 0, 0; 0, 1, 0, 0]

/-! ## Claim theorems -/

/-- Claim C1: the target operator `Sg` is the matrix exponential of the
product of the symplectic structure matrix for two oscillators with the
fixed 4×4 coupling matrix built with `a = 1`. -/
theorem target_op_is_exp_omega_dot_Ag :
    Sg = NormedSpace.exp ℝ (specOmega4 * specAg) := by
  have h2 : specOmega4 * specAg =
      !![(0 : ℝ), 0, 0, 1; 0, 0, -1, 0; 0, 1, 0, 0; -1, 0, 0, 0] := by
    ext i j
    fin_cases i <;> fin_cases j <;>
      simp [specOmega4, specAg, Matrix.mul_apply, Fin.sum_univ_four,
        Matrix.vecHead, Matrix.vecTail]
  have h1 : Sg_arg.map (fun q => (q : ℝ)) =
      !![(0 : ℝ), 0, 0, 1; 0, 0, -1, 0; 0, 1, 0, 0; -1, 0, 0, 0] := by
    rw [Sg_arg_lit]
    ext i j
    fin_cases i <;> fin_cases j <;>
      simp [Matrix.map_apply, Matrix.vecHead, Matrix.vecTail]
  rw [Sg, h1, h2]

/-- Claim C2: the notebook's dynamic call trace invokes
`cpo.optimize_pulse` exactly once, and the single recorded optimiser call
has drift generator `A0`, control list `[Ac]`, initial operator
`identity(4)` and target operator `Sg` as its first four arguments. -/
theorem optimize_pulse_called_once_with_operators :
    notebook_call_trace.count "cpo.optimize_pulse" = 1 ∧
    notebook_opt_calls.length = 1 ∧
    notebook_opt_calls.map OptimizeCall.drift = [A0] ∧
    notebook_opt_calls.map OptimizeCall.ctrls = [[Ac]] ∧
    notebook_opt_calls.map OptimizeCall.initial = [identity 4] ∧
    notebook_opt_calls.map OptimizeCall.target = [Sg] :=
  ⟨by decide, rfl, rfl, rfl, rfl, rfl⟩

/-- Claim C3: the scalar configuration the notebook passes to
`optimize_pulse` is exactly `n_ts = 1000`, `evo_time = 10`,
`fid_err_targ = 1e-10`, `min_grad = 1e-20`, `max_iter = 500`,
`max_wall_time = 30` and initial pulse type `'ZERO'`. -/
theorem optimize_pulse_scalar_config :
    notebook_opt_calls.map OptimizeCall.num_tslots = [1000] ∧
    notebook_opt_calls.map OptimizeCall.evo_time = [10] ∧
    notebook_opt_calls.map OptimizeCall.fid_err_targ = [1 / 10 ^ 10] ∧
    notebook_opt_calls.map OptimizeCall.min_grad = [1 / 10 ^ 20] ∧
    notebook_opt_calls.map OptimizeCall.max_iter = [500] ∧
    notebook_opt_calls.map OptimizeCall.max_wall_time = [30] ∧
    notebook_opt_calls.map OptimizeCall.init_pulse_type = ["ZERO"] := by
  refine ⟨rfl, rfl, ?_, ?_, rfl, rfl, rfl⟩ <;>
    (simp [notebook_opt_calls, fid_err_targ, min_grad]; norm_num)

/-- Claim C4: the output-file extension is a pure, deterministic function
of the run configuration: any two evaluations at the notebook's
configuration return the identical string
`Symplectic_n_ts1000_ptypeZERO.txt`, which is the notebook's `f_ext`. -/
theorem f_ext_deterministic (s₁ s₂ : String)
    (h₁ : s₁ = format_f_ext "Symplectic" 1000 "ZERO")
    (h₂ : s₂ = format_f_ext "Symplectic" 1000 "ZERO") :
    s₁ = s₂ ∧ s₁ = "Symplectic_n_ts1000_ptypeZERO.txt" ∧ s₁ = f_ext := by
  subst h₁ h₂
  exact ⟨rfl, by decide, by decide⟩

/-- Witness for C4: both evaluations at the concrete configuration agree
and equal the expected string. -/
theorem f_ext_deterministic_witness :
    format_f_ext "Symplectic" 1000 "ZERO" = format_f_ext "Symplectic" 1000 "ZERO" ∧
    format_f_ext "Symplectic" 1000 "ZERO" = "Symplectic_n_ts1000_ptypeZERO.txt" ∧
    format_f_ext "Symplectic" 1000 "ZERO" = f_ext :=
  f_ext_deterministic (format_f_ext "Symplectic" 1000 "ZERO")
    (format_f_ext "Symplectic" 1000 "ZERO") rfl rfl

/-- Claim C5: every matrix the notebook constructs — the drift generator,
the control generator, the target generator, the initial operator
`identity(4)` and the target operator `Sg` — is square of dimension 4. -/
theorem all_operands_square_dim_four :
    listShape A0_rows = (4, [4, 4, 4, 4]) ∧
    listShape Ac_rows = (4, [4, 4, 4, 4]) ∧
    listShape Ag_rows = (4, [4, 4, 4, 4]) ∧
    matShape initial = (4, [4, 4, 4, 4]) ∧
    matShape Sg = (4, [4, 4, 4, 4]) :=
  ⟨rfl, rfl, rfl, rfl, rfl⟩

/-- Claim C6: the single optimiser call passes `out_file_ext = f_ext`
(never None), and under the spec's file-output model this produces exactly
two text files of control amplitudes, one initial and one final, named
from the run configuration; file output is suppressed only for None. -/
theorem two_amp_output_files :
    notebook_opt_calls.map OptimizeCall.out_file_ext = [some f_ext] ∧
    (ampFileNames (some f_ext)).length = 2 ∧
    ampFileNames (some f_ext) =
      ["ctrl_amps_initial_Symplectic_n_ts1000_ptypeZERO.txt",
       "ctrl_amps_final_Symplectic_n_ts1000_ptypeZERO.txt"] ∧
    ampFileNames none = [] :=
  ⟨rfl, rfl, by decide, rfl⟩

/-- Claim C7: no notebook statement is a try/except form, and when the
optimiser call raises, the error propagates out of the straight-line
execution of the notebook unhandled. -/
theorem no_try_except_error_propagates :
    notebook_stmts.filter isTryExcept = [] ∧
    notebook_stmts.all (fun s => ! isTryExcept s) = true ∧
    runStmts (fun fn => fn == "cpo.optimize_pulse") notebook_stmts [] =
      Except.error "cpo.optimize_pulse" :=
  ⟨by decide, by decide, rfl⟩

/-- Claim C8: each generator matrix defined in the notebook is symmetric:
`A0`, `Ac` and `Ag` all equal their transposes. -/
theorem generators_symmetric :
    A0.transpose = A0 ∧ Ac.transpose = Ac ∧ Ag.transpose = Ag := by
  refine ⟨?_, ?_, ?_⟩ <;> (ext i j; fin_cases i <;> fin_cases j <;> rfl)

/-- Claim C9: the control list has exactly one generator, so
`n_ctrls = 1`, the plotting loops' index `j` ranges over `[0]` only, and
column indexing is in bounds whenever the amplitude rows have `n_ctrls`
entries. -/
theorem single_ctrl_index_in_bounds {α : Type} (amps : List (List α))
    (h : ∀ r ∈ amps, r.length = n_ctrls) :
    n_ctrls = 1 ∧ List.range n_ctrls = [0] ∧
    ∀ j ∈ List.range n_ctrls, ∀ r ∈ amps, j < r.length := by
  refine ⟨rfl, rfl, ?_⟩
  intro j hj r hr
  rw [h r hr]
  simp [n_ctrls, ctrls] at hj ⊢
  omega

/-- Witness for C9: a concrete one-column amplitude array. -/
theorem single_ctrl_index_in_bounds_witness :
    n_ctrls = 1 ∧ (0 : ℕ) < [(0 : ℚ)].length :=
  ⟨(single_ctrl_index_in_bounds [[(0 : ℚ)]] (by decide)).1,
   (single_ctrl_index_in_bounds [[(0 : ℚ)]] (by decide)).2.2 0 (by decide)
     [(0 : ℚ)] (by decide)⟩

/-- Claim C10: the sequence handed to the step plot is the j-th amplitude
column with the last row's j-th value appended once: its length is one
more than the number of rows (`n_ts + 1`, the length of `result.time`),
its first entries are the column itself, and its last two entries are
equal. -/
theorem step_plot_sequence_spec {α : Type} (amps : List (List α))
    (lastRow : List α) (j : ℕ) (d : α)
    (h : amps.getLast? = some lastRow) :
    step_amps (colD amps j d) = colD amps j d ++ [lastRow.getD j d] ∧
    (step_amps (colD amps j d)).length = amps.length + 1 ∧
    (step_amps (colD amps j d)).take amps.length = colD amps j d ∧
    (step_amps (colD amps j d))[amps.length - 1]? =
      (step_amps (colD amps j d))[amps.length]? ∧
    (amps.length = n_ts → (step_amps (colD amps j d)).length = time_len n_ts) := by
  have h0 : amps ≠ [] := by
    intro he
    rw [he] at h
    exact Option.noConfusion h
  have hlen : (colD amps j d).length = amps.length := by simp [colD]
  have hlast : (colD amps j d).getLast? = some (lastRow.getD j d) := by
    rw [colD, List.getLast?_map, h]
    rfl
  have heq : step_amps (colD amps j d) = colD amps j d ++ [lastRow.getD j d] := by
    rw [step_amps, hlast]
    rfl
  have hpos : 0 < amps.length := List.length_pos.mpr h0
  refine ⟨heq, ?_, ?_, ?_, ?_⟩
  · rw [heq]
    simp [hlen]
  · rw [heq, ← hlen, List.take_left]
  · rw [heq]
    rw [List.getElem?_append_left (by omega : amps.length - 1 < (colD amps j d).length)]
    rw [← hlen, List.getElem?_concat_length, ← List.getLast?_eq_getElem?, hlast]
  · intro hn
    rw [heq]
    simp [hlen, time_len, hn]

/-- Witness for C10: a concrete two-row, one-column amplitude array. -/
theorem step_plot_sequence_spec_witness :
    step_amps (colD [[(1 : ℚ)], [2]] 0 0) =
      colD [[(1 : ℚ)], [2]] 0 0 ++ [List.getD [(2 : ℚ)] 0 0] ∧
    (step_amps (colD [[(1 : ℚ)], [2]] 0 0)).length = [[(1 : ℚ)], [2]].length + 1 ∧
    (step_amps (colD [[(1 : ℚ)], [2]] 0 0)).take [[(1 : ℚ)], [2]].length =
      colD [[(1 : ℚ)], [2]] 0 0 :=
  ⟨(step_plot_sequence_spec [[(1 : ℚ)], [2]] [(2 : ℚ)] 0 0 (by decide)).1,
   (step_plot_sequence_spec [[(1 : ℚ)], [2]] [(2 : ℚ)] 0 0 (by decide)).2.1,
   (step_plot_sequence_spec [[(1 : ℚ)], [2]] [(2 : ℚ)] 0 0 (by decide)).2.2.1⟩

end SymplNB
